import Mathlib

/-!
Shallow embedding of the chat connection lifecycle and listener state machine
of `rust/bridge/shared/types/src/net/chat.rs` (and the acknowledgment bridge
functions of `rust/bridge/shared/src/net/chat.rs`).

Rust panics are modelled explicitly by the `Outcome` type, so that a function
that can `panic!`/`expect`/`unreachable!` in the source returns
`Outcome.panicked msg` at exactly the inputs where the source panics.
Opaque foreign handles (connections, runtime handles, response senders) are
modelled as structures carrying a numeric identity.
-/

/-- Result of running a piece of Rust code that may panic: either a normal
value or a panic carrying the panic message. -/
inductive Outcome (α : Type) where
  | ok (a : α)
  | panicked (msg : String)
deriving DecidableEq, Repr

/-- Error type standing for `libsignal_net::chat::ChatServiceError`; the
claims only need it to be an inhabited, decidable type of send failures. -/
inductive ChatServiceError where
  | Disconnected
  | TimedOut
  | ServiceUnavailable
  | Other (code : Nat)
deriving DecidableEq, Repr

/-- Events pushed by the server, from `chat::server_requests::ServerEvent`:
an incoming message (with id, envelope bytes, delivery timestamp and the ack
sender), a queue-empty notice, or a terminal stop with its cause. -/
inductive ServerEvent where
  | IncomingMessage (requestId : Nat) (envelope : List Nat)
      (serverDeliveryTimestamp : Nat) (sendAck : Nat)
  | QueueEmpty
  | Stopped (error : ChatServiceError)
deriving DecidableEq, Repr

/-! ## Acknowledgment token (`ServerMessageAck`)

`ServerMessageAck` wraps an `AtomicTake<ResponseEnvelopeSender>`.  The sender
is modelled by its identity; invoking it transmits one status report to the
server, which we record in an explicit log of statuses received.  `take`
mirrors `AtomicTake::take`: it empties the cell and yields the previous
contents. -/

structure ServerMessageAck where
  inner : Option Nat
deriving DecidableEq, Repr

def ServerMessageAck.new (sendAck : Nat) : ServerMessageAck :=
  ⟨some sendAck⟩

def ServerMessageAck.take (a : ServerMessageAck) :
    Option Nat × ServerMessageAck :=
  (a.inner, ⟨none⟩)

/-- Invoking a `ResponseEnvelopeSender` with a status code: one status report
is transmitted to the server (appended to the server's log). -/
def invokeResponseSender (_sender : Nat) (status : Nat) (log : List Nat) :
    List Nat × Except ChatServiceError Unit :=
  (log ++ [status], Except.ok ())

/-- `ServerMessageAck_Send` from `rust/bridge/shared/src/net/chat.rs`:
`let future = ack.take().expect("a message is only acked once"); future(StatusCode::OK).await`.
Returns the bridged result, the ack cell afterwards, and the server log. -/
def ServerMessageAck_Send (ack : ServerMessageAck) (log : List Nat) :
    Outcome (Except ChatServiceError Unit) × ServerMessageAck × List Nat :=
  match ack.take with
  | (some sender, ack') =>
      let (log', r) := invokeResponseSender sender 200 log
      (Outcome.ok r, ack', log')
  | (none, ack') => (Outcome.panicked "a message is only acked once", ack', log)

/-- `ServerMessageAck_SendStatus`: like `ServerMessageAck_Send` but with a
caller-chosen status code. -/
def ServerMessageAck_SendStatus (ack : ServerMessageAck) (status : Nat)
    (log : List Nat) :
    Outcome (Except ChatServiceError Unit) × ServerMessageAck × List Nat :=
  match ack.take with
  | (some sender, ack') =>
      let (log', r) := invokeResponseSender sender status log
      (Outcome.ok r, ack', log')
  | (none, ack') => (Outcome.panicked "a message is only acked once", ack', log)

/-! ## Connection phase cell (`MaybeChatConnection`) -/

structure RuntimeHandle where
  id : Nat
deriving DecidableEq, Repr

structure PendingChatConnection where
  id : Nat
deriving DecidableEq, Repr

structure ChatConnection where
  id : Nat
deriving DecidableEq, Repr

structure ConnectionInfo where
  id : Nat
deriving DecidableEq, Repr

def PendingChatConnection.connection_info (p : PendingChatConnection) :
    ConnectionInfo := ⟨p.id⟩

def ChatConnection.connection_info (c : ChatConnection) : ConnectionInfo :=
  ⟨c.id⟩

/-- `ChatConnection::finish_connect(tokio_runtime, pending, event_listener)`:
completes construction of the running connection from the pending one with
the listener's dispatch callback wired in. -/
def ChatConnection.finish_connect (_rt : RuntimeHandle)
    (pending : PendingChatConnection) (_listener : Nat) : ChatConnection :=
  ⟨pending.id⟩

/-- The contents of the `RwLock` cell in
`UnauthenticatedChatConnection`/`AuthenticatedChatConnection`. -/
inductive MaybeChatConnection where
  | Running (c : ChatConnection)
  | WaitingForListener (rt : RuntimeHandle) (pending : PendingChatConnection)
  | TemporarilyEvicted
deriving DecidableEq, Repr

/-- Outgoing request, from `libsignal_net::chat::Request`; the claims do not
depend on its contents. -/
structure Request where
  method : String
  path : String
deriving DecidableEq, Repr

structure ChatResponse where
  status : Nat
deriving DecidableEq, Repr

/-- `init_listener` (free function, `rust/bridge/shared/types/src/net/chat.rs`):
takes the cell contents out (leaving `TemporarilyEvicted`), and
  - if the connection was already `Running`, stores it back and panics
    "listener already set";
  - if `WaitingForListener`, finishes the connection and stores `Running`;
  - if `TemporarilyEvicted`, panics without restoring anything.
Returns the value stored in the cell afterwards and the panic outcome. -/
def init_listener (connection : MaybeChatConnection) (listener : Nat) :
    MaybeChatConnection × Outcome Unit :=
  match connection with
  | MaybeChatConnection.Running c =>
      (MaybeChatConnection.Running c, Outcome.panicked "listener already set")
  | MaybeChatConnection.WaitingForListener rt pending =>
      (MaybeChatConnection.Running
        (ChatConnection.finish_connect rt pending listener), Outcome.ok ())
  | MaybeChatConnection.TemporarilyEvicted =>
      (MaybeChatConnection.TemporarilyEvicted,
        Outcome.panicked "should be a temporary state")

namespace BridgeChatConnection

/-- `BridgeChatConnection::send`: acquire read access; if the cell is not
`Running`, panic "listener was not set" without touching the transport;
otherwise forward to the running connection's transport.  The transport is a
parameter; the boolean records whether the request reached it. -/
def send (transport : ChatConnection → Request → Nat →
      Except ChatServiceError ChatResponse)
    (connection : MaybeChatConnection) (message : Request) (timeout : Nat) :
    Outcome (Except ChatServiceError ChatResponse) × Bool :=
  match connection with
  | MaybeChatConnection.Running c =>
      (Outcome.ok (transport c message timeout), true)
  | _ => (Outcome.panicked "listener was not set", false)

/-- `BridgeChatConnection::disconnect`: read access; panic "listener was not
set" unless `Running`, else forward to the transport (boolean records whether
the transport-level disconnect was reached). -/
def disconnect (connection : MaybeChatConnection) : Outcome Unit × Bool :=
  match connection with
  | MaybeChatConnection.Running _ => (Outcome.ok (), true)
  | _ => (Outcome.panicked "listener was not set", false)

/-- `BridgeChatConnection::info`: returns connection metadata in either
non-transient phase; observing `TemporarilyEvicted` is `unreachable!`. -/
def info (connection : MaybeChatConnection) : Outcome ConnectionInfo :=
  match connection with
  | MaybeChatConnection.Running c => Outcome.ok c.connection_info
  | MaybeChatConnection.WaitingForListener _ pending =>
      Outcome.ok pending.connection_info
  | MaybeChatConnection.TemporarilyEvicted =>
      Outcome.panicked "unobservable state"

end BridgeChatConnection

/-- The public operations on the phase cell.  `init_listener` takes the write
lock and may store a new state; `send`, `disconnect` and `info` take read
access only and never write the cell. -/
inductive PhaseOp where
  | initL (listener : Nat)
  | sendOp (message : Request) (timeout : Nat)
  | disconnectOp
  | infoOp
deriving DecidableEq, Repr

/-- The value the phase cell holds after one public operation. -/
def applyPhaseOp (connection : MaybeChatConnection) (op : PhaseOp) :
    MaybeChatConnection :=
  match op with
  | PhaseOp.initL listener => (init_listener connection listener).1
  | PhaseOp.sendOp _ _ => connection
  | PhaseOp.disconnectOp => connection
  | PhaseOp.infoOp => connection

/-! ## Listener slot (`ChatListenerState`) and run-loop (`start_listening`)

The event stream is modelled as the list of events still to be produced.  A
`JoinHandle` for a run-loop task is modelled by the stream the task returns
when awaited (run-loop results are deterministic given their inputs).
Cancellation (`oneshot`) is modelled by the number of run-loop iterations
after which the cancellation signal is ready: `some k` means the sender is
dropped while the loop is at iteration `k`; `none` means never. -/

structure JoinHandle where
  result : List ServerEvent
deriving DecidableEq, Repr

inductive ChatListenerState where
  | Inactive (stream : List ServerEvent)
  | Active (handle : JoinHandle) (cancel : Nat)
  | Cancelled (handle : JoinHandle)
  | CurrentlyBeingMutated
deriving DecidableEq, Repr

/-- `ChatListenerState::cancel`: replace the state with
`CurrentlyBeingMutated`, then: `Active {handle, cancel}` becomes
`Cancelled(handle)` (dropping the cancel sender); `Inactive`/`Cancelled` are
put back unchanged; finding `CurrentlyBeingMutated` is `unreachable!`. -/
def ChatListenerState.cancel (st : ChatListenerState) :
    ChatListenerState × Outcome Unit :=
  match st with
  | ChatListenerState.Active handle _cancel =>
      (ChatListenerState.Cancelled handle, Outcome.ok ())
  | ChatListenerState.Inactive s => (ChatListenerState.Inactive s, Outcome.ok ())
  | ChatListenerState.Cancelled h =>
      (ChatListenerState.Cancelled h, Outcome.ok ())
  | ChatListenerState.CurrentlyBeingMutated =>
      (ChatListenerState.CurrentlyBeingMutated,
        Outcome.panicked "this state should be ephemeral")

/-- `Chat::clear_listener`: takes the lock and calls `cancel`. -/
def clear_listener (st : ChatListenerState) : ChatListenerState × Outcome Unit :=
  st.cancel

/-- The `request_stream_future` handed by `set_listener` to the run-loop it
spawns: either an immediately ready stream (from `Inactive`) or the eventual
stream of a previous run-loop task to be awaited (from `Active`/`Cancelled`). -/
inductive StreamSource where
  | ready (stream : List ServerEvent)
  | awaitTask (handle : JoinHandle)
deriving DecidableEq, Repr

/-- Awaiting the stream future: a ready stream is immediate; awaiting a
task's handle yields the stream that task returned. -/
def StreamSource.awaitStream : StreamSource → List ServerEvent
  | StreamSource.ready s => s
  | StreamSource.awaitTask h => h.result

/-- `Chat::set_listener`: under the lock, take the state (leaving
`CurrentlyBeingMutated`); compute the stream future handed to the new
run-loop (`Inactive` hands the stream directly, `Active` drops the previous
cancel sender and hands the previous task's handle, `Cancelled` hands the
handle); spawn the new run-loop and store `Active` with the fresh handle and
cancel sender.  Finding `CurrentlyBeingMutated` is `unreachable!`, leaving
the marker stored.  Returns (stored state, stream source for the new
run-loop, panic outcome). -/
def set_listener (newHandle : JoinHandle) (newCancel : Nat)
    (st : ChatListenerState) :
    ChatListenerState × Option StreamSource × Outcome Unit :=
  match st with
  | ChatListenerState.Inactive stream =>
      (ChatListenerState.Active newHandle newCancel,
        some (StreamSource.ready stream), Outcome.ok ())
  | ChatListenerState.Active handle _cancel =>
      (ChatListenerState.Active newHandle newCancel,
        some (StreamSource.awaitTask handle), Outcome.ok ())
  | ChatListenerState.Cancelled handle =>
      (ChatListenerState.Active newHandle newCancel,
        some (StreamSource.awaitTask handle), Outcome.ok ())
  | ChatListenerState.CurrentlyBeingMutated =>
      (ChatListenerState.CurrentlyBeingMutated, none,
        Outcome.panicked "this state should be ephemeral")

/-- Is the modelled `oneshot` cancellation signal ready at this iteration? -/
def cancelReady : Option Nat → Bool
  | some 0 => true
  | _ => false

/-- One loop iteration has consumed an event: the countdown to cancellation
readiness decreases (a signal that never fires stays `none`; a signal that is
already ready stays ready). -/
def tickCancel : Option Nat → Option Nat
  | some (k + 1) => some k
  | c => c

/-- Output of the run-loop body: the events dispatched to the listener in
order, the undrained remaining stream returned for a future listener, and
whether a listener-dispatch panic was caught and logged. -/
structure RunOutput where
  delivered : List ServerEvent
  remaining : List ServerEvent
  loggedListenerPanic : Bool
deriving DecidableEq, Repr

/-- The loop of `ChatListener::start_listening`.  Each iteration performs a
`tokio::select!` with `biased`: the cancellation signal is polled first, so
if it is ready the loop breaks without pulling from the stream.  Otherwise
the next stream item (if any) is dispatched to the listener on a blocking
task, and the loop awaits that dispatch before continuing.  `panics e = true`
means the listener callback panics while processing `e`: the panic is caught
as a `JoinError`, logged, and the loop breaks.  `cancel` counts the
iterations until the cancellation signal is ready. -/
def runLoop (panics : ServerEvent → Bool) :
    Option Nat → List ServerEvent → RunOutput
  | cancel, s =>
    if cancelReady cancel then ⟨[], s, false⟩
    else
      match s with
      | [] => ⟨[], [], false⟩
      | e :: rest =>
          if panics e then ⟨[e], rest, true⟩
          else
            let o := runLoop panics (tickCancel cancel) rest
            ⟨e :: o.delivered, o.remaining, o.loggedListenerPanic⟩

/-- `ChatListener::start_listening`: awaits the stream future (a `JoinError`
from the previous task is re-raised via `resume_unwind`), then runs the loop
and returns the remaining stream (carried in the `RunOutput`). -/
def start_listening (panics : ServerEvent → Bool)
    (request_stream_future : Except String (List ServerEvent))
    (cancel : Option Nat) : Outcome RunOutput :=
  match request_stream_future with
  | Except.error msg => Outcome.panicked msg
  | Except.ok stream => Outcome.ok (runLoop panics cancel stream)

/-! Trace-level view of the same loop, for the sequential-dispatch claim:
the loop's interaction with the listener as an ordered list of dispatch
begin/end actions.  Dispatch of an event ends before the next iteration
pulls another item; a panicking dispatch begins but never ends. -/

inductive LoopAction where
  | beginDispatch (e : ServerEvent)
  | endDispatch (e : ServerEvent)
deriving DecidableEq, Repr

/-- The sequence of dispatch actions performed by the run-loop. -/
def runLoopTrace (panics : ServerEvent → Bool) :
    Option Nat → List ServerEvent → List LoopAction
  | cancel, s =>
    if cancelReady cancel then []
    else
      match s with
      | [] => []
      | e :: rest =>
          if panics e then [LoopAction.beginDispatch e]
          else LoopAction.beginDispatch e :: LoopAction.endDispatch e ::
            runLoopTrace panics (tickCancel cancel) rest

/-- A trace is strictly sequential: every dispatch that begins ends before
another begins (a final begin with no end is the caught-panic case). -/
def seqCheck : List LoopAction → Bool
  | [] => true
  | LoopAction.beginDispatch _ :: [] => true
  | LoopAction.beginDispatch e :: LoopAction.endDispatch e' :: rest =>
      e == e' && seqCheck rest
  | _ => false

/-- The events whose dispatch begins, in trace order. -/
def dispatchBegins : List LoopAction → List ServerEvent
  | [] => []
  | LoopAction.beginDispatch e :: rest => e :: dispatchBegins rest
  | LoopAction.endDispatch _ :: rest => dispatchBegins rest

/-- A listener that never panics. -/
def noPanic : ServerEvent → Bool := fun _ => false

/-! ## Helper lemmas about the run-loop -/

/-- When cancellation fires only after `k` more iterations and the listener
never panics, the loop delivers the first `k` events and returns the rest. -/
theorem runLoop_noPanic_some : ∀ (s : List ServerEvent) (k : Nat),
    runLoop noPanic (some k) s = ⟨s.take k, s.drop k, false⟩ := by
  intro s
  induction s with
  | nil => intro k; cases k <;> simp [runLoop, cancelReady]
  | cons e rest ih =>
      intro k
      cases k with
      | zero => simp [runLoop, cancelReady]
      | succ k => simp [runLoop, cancelReady, tickCancel, noPanic, ih k]

/-- A run-loop whose listener panics on no event of the stream, and which is
never cancelled, drains the whole stream. -/
theorem runLoop_of_noPanics : ∀ (p : ServerEvent → Bool) (s : List ServerEvent),
    (∀ x ∈ s, p x = false) → runLoop p none s = ⟨s, [], false⟩ := by
  intro p s
  induction s with
  | nil => intro _; simp [runLoop, cancelReady]
  | cons e rest ih =>
      intro h
      have he : p e = false := h e (by simp)
      have hr := ih fun x hx => h x (by simp [hx])
      simp [runLoop, cancelReady, tickCancel, he, hr]

theorem runLoop_noPanic_none (s : List ServerEvent) :
    runLoop noPanic none s = ⟨s, [], false⟩ :=
  runLoop_of_noPanics noPanic s fun _ _ => rfl

/-- If the listener first panics on `e`, the loop delivers everything up to
and including `e`, logs the panic, and leaves the tail unread. -/
theorem runLoop_panics_at : ∀ (p : ServerEvent → Bool) (s1 : List ServerEvent)
    (e : ServerEvent) (s2 : List ServerEvent),
    (∀ x ∈ s1, p x = false) → p e = true →
    runLoop p none (s1 ++ e :: s2) = ⟨s1 ++ [e], s2, true⟩ := by
  intro p s1
  induction s1 with
  | nil => intro e s2 _ he; simp [runLoop, cancelReady, he]
  | cons a rest ih =>
      intro e s2 h1 he
      have ha : p a = false := h1 a (by simp)
      have hr := ih e s2 (fun x hx => h1 x (by simp [hx])) he
      simp [runLoop, cancelReady, tickCancel, ha, hr]

/-- Every event is either delivered or left in the remaining stream: no
event is duplicated or dropped by a run of the loop. -/
theorem runLoop_delivered_append_remaining :
    ∀ (p : ServerEvent → Bool) (c : Option Nat) (s : List ServerEvent),
    (runLoop p c s).delivered ++ (runLoop p c s).remaining = s := by
  intro p c s
  induction s generalizing c with
  | nil => cases hc : cancelReady c <;> simp [runLoop, hc]
  | cons e rest ih =>
      cases hc : cancelReady c with
      | true => simp [runLoop, hc]
      | false =>
          cases hp : p e with
          | true => simp [runLoop, hc, hp]
          | false => simp [runLoop, hc, hp, ih (tickCancel c)]

/-- The dispatch trace is strictly sequential. -/
theorem seqCheck_runLoopTrace :
    ∀ (p : ServerEvent → Bool) (c : Option Nat) (s : List ServerEvent),
    seqCheck (runLoopTrace p c s) = true := by
  intro p c s
  induction s generalizing c with
  | nil => cases hc : cancelReady c <;> simp [runLoopTrace, hc, seqCheck]
  | cons e rest ih =>
      cases hc : cancelReady c with
      | true => simp [runLoopTrace, hc, seqCheck]
      | false =>
          cases hp : p e with
          | true => simp [runLoopTrace, hc, hp, seqCheck]
          | false => simp [runLoopTrace, hc, hp, seqCheck, ih (tickCancel c)]

/-- The events whose dispatch begins in the trace are exactly the events the
loop delivers, in the same order. -/
theorem dispatchBegins_runLoopTrace :
    ∀ (p : ServerEvent → Bool) (c : Option Nat) (s : List ServerEvent),
    dispatchBegins (runLoopTrace p c s) = (runLoop p c s).delivered := by
  intro p c s
  induction s generalizing c with
  | nil => cases hc : cancelReady c <;> simp [runLoopTrace, runLoop, hc, dispatchBegins]
  | cons e rest ih =>
      cases hc : cancelReady c with
      | true => simp [runLoopTrace, runLoop, hc, dispatchBegins]
      | false =>
          cases hp : p e with
          | true => simp [runLoopTrace, runLoop, hc, hp, dispatchBegins]
          | false =>
              simp [runLoopTrace, runLoop, hc, hp, dispatchBegins, ih (tickCancel c)]

/-- `applyPhaseOp` never moves a `Running` connection to another state. -/
theorem applyPhaseOp_running (c : ChatConnection) (op : PhaseOp) :
    applyPhaseOp (MaybeChatConnection.Running c) op =
      MaybeChatConnection.Running c := by
  cases op <;> simp [applyPhaseOp, init_listener]

/-! ## Claim theorems -/

/-- C1 (counterexample): the second redemption of an acknowledgment token is
not reported to the caller as a returned error value; the bridge function
panics (via `expect`) with the contract-violation message "a message is only
acked once".  Concretely: create an ack, redeem it, redeem it again. -/
theorem ack_second_redemption_panics :
    (ServerMessageAck_Send
        (ServerMessageAck_Send (ServerMessageAck.new 0) []).2.1
        (ServerMessageAck_Send (ServerMessageAck.new 0) []).2.2).1 =
      Outcome.panicked "a message is only acked once" := rfl

/-- C1 (amended): redeeming the same acknowledgment token twice — via
`ServerMessageAck_Send` or `ServerMessageAck_SendStatus` — results in exactly
one underlying status report being sent (the server log after both calls
holds exactly the first status); the second redemption performs no send and
is not a silent success: it aborts with the panic message "a message is only
acked once". -/
theorem ack_exactly_once (sender : Nat) (status : Nat) :
    (ServerMessageAck_Send (ServerMessageAck.new sender) []).1 =
        Outcome.ok (Except.ok ()) ∧
    (ServerMessageAck_Send (ServerMessageAck.new sender) []).2.2 = [200] ∧
    (ServerMessageAck_Send (ServerMessageAck.new sender) []).2.1.inner = none ∧
    (ServerMessageAck_Send
        (ServerMessageAck_Send (ServerMessageAck.new sender) []).2.1
        (ServerMessageAck_Send (ServerMessageAck.new sender) []).2.2) =
      (Outcome.panicked "a message is only acked once", ⟨none⟩, [200]) ∧
    (ServerMessageAck_SendStatus
        (ServerMessageAck_Send (ServerMessageAck.new sender) []).2.1 status
        (ServerMessageAck_Send (ServerMessageAck.new sender) []).2.2) =
      (Outcome.panicked "a message is only acked once", ⟨none⟩, [200]) :=
  ⟨rfl, rfl, rfl, rfl, rfl⟩

/-- C2: if listener A's run-loop is cancelled after delivering `k < N` of the
`N` events of the stream, it returns the undrained tail; `set_listener` hands
exactly that tail (by awaiting the previous task's handle) to the new
run-loop, and listener B's run then observes exactly the remaining `N − k`
events in the original order — no event duplicated, dropped or reordered. -/
theorem listener_swap_no_event_loss (s : List ServerEvent) (k : Nat)
    (oldCancel newCancel : Nat) (newHandle : JoinHandle)
    (hk : k < s.length) :
    (runLoop noPanic (some k) s).delivered = s.take k ∧
    (set_listener newHandle newCancel
        (ChatListenerState.Active ⟨(runLoop noPanic (some k) s).remaining⟩
          oldCancel)).2.1 =
      some (StreamSource.awaitTask ⟨s.drop k⟩) ∧
    (runLoop noPanic none
        (StreamSource.awaitTask (⟨s.drop k⟩ : JoinHandle)).awaitStream).delivered =
      s.drop k ∧
    (runLoop noPanic (some k) s).delivered ++
        (runLoop noPanic none
          (StreamSource.awaitTask (⟨s.drop k⟩ : JoinHandle)).awaitStream).delivered =
      s := by
  have hA := runLoop_noPanic_some s k
  have hB := runLoop_noPanic_none (s.drop k)
  refine ⟨by rw [hA], by rw [hA]; rfl, ?_, ?_⟩
  · simp [StreamSource.awaitStream, hB]
  · rw [hA]
    simp [StreamSource.awaitStream, hB]

/-- C2 witness: a three-event stream with the listener swapped after one
event. -/
theorem listener_swap_no_event_loss_witness :
    1 < ([ServerEvent.QueueEmpty,
          ServerEvent.IncomingMessage 7 [1, 2] 3 4,
          ServerEvent.Stopped ChatServiceError.Disconnected] :
            List ServerEvent).length ∧
    ((runLoop noPanic (some 1)
        [ServerEvent.QueueEmpty,
         ServerEvent.IncomingMessage 7 [1, 2] 3 4,
         ServerEvent.Stopped ChatServiceError.Disconnected]).delivered =
      [ServerEvent.QueueEmpty,
        ServerEvent.IncomingMessage 7 [1, 2] 3 4,
        ServerEvent.Stopped ChatServiceError.Disconnected].take 1 ∧
    (set_listener ⟨[]⟩ 5
        (ChatListenerState.Active
          ⟨(runLoop noPanic (some 1)
              [ServerEvent.QueueEmpty,
               ServerEvent.IncomingMessage 7 [1, 2] 3 4,
               ServerEvent.Stopped ChatServiceError.Disconnected]).remaining⟩
          0)).2.1 =
      some (StreamSource.awaitTask
        ⟨[ServerEvent.QueueEmpty,
          ServerEvent.IncomingMessage 7 [1, 2] 3 4,
          ServerEvent.Stopped ChatServiceError.Disconnected].drop 1⟩) ∧
    (runLoop noPanic none
        (StreamSource.awaitTask
          (⟨[ServerEvent.QueueEmpty,
             ServerEvent.IncomingMessage 7 [1, 2] 3 4,
             ServerEvent.Stopped ChatServiceError.Disconnected].drop 1⟩ :
            JoinHandle)).awaitStream).delivered =
      [ServerEvent.QueueEmpty,
        ServerEvent.IncomingMessage 7 [1, 2] 3 4,
        ServerEvent.Stopped ChatServiceError.Disconnected].drop 1 ∧
    (runLoop noPanic (some 1)
        [ServerEvent.QueueEmpty,
         ServerEvent.IncomingMessage 7 [1, 2] 3 4,
         ServerEvent.Stopped ChatServiceError.Disconnected]).delivered ++
        (runLoop noPanic none
          (StreamSource.awaitTask
            (⟨[ServerEvent.QueueEmpty,
               ServerEvent.IncomingMessage 7 [1, 2] 3 4,
               ServerEvent.Stopped ChatServiceError.Disconnected].drop 1⟩ :
              JoinHandle)).awaitStream).delivered =
      [ServerEvent.QueueEmpty,
        ServerEvent.IncomingMessage 7 [1, 2] 3 4,
        ServerEvent.Stopped ChatServiceError.Disconnected]) :=
  ⟨by decide,
    listener_swap_no_event_loss
      [ServerEvent.QueueEmpty,
        ServerEvent.IncomingMessage 7 [1, 2] 3 4,
        ServerEvent.Stopped ChatServiceError.Disconnected]
      1 0 5 ⟨[]⟩ (by decide)⟩

/-- C3: on a connection whose phase cell still holds `WaitingForListener`,
`send` fails deterministically — it panics "listener was not set" — and the
request never reaches the transport (for every transport, message and
timeout), rather than blocking or queueing. -/
theorem send_before_listener_fails_fast
    (transport : ChatConnection → Request → Nat →
      Except ChatServiceError ChatResponse)
    (rt : RuntimeHandle) (pending : PendingChatConnection)
    (message : Request) (timeout : Nat) :
    BridgeChatConnection.send transport
        (MaybeChatConnection.WaitingForListener rt pending) message timeout =
      (Outcome.panicked "listener was not set", false) := rfl

/-- C4: the phase cell transitions `WaitingForListener → Running` exactly on
the first `init_listener` call; a second attach on a `Running` connection is
rejected (panic "listener already set") with the state unchanged; and no
sequence of public operations ever moves a `Running` connection back to
`WaitingForListener` (or anywhere else). -/
theorem phase_transition_exactly_once :
    (∀ (rt : RuntimeHandle) (pending : PendingChatConnection) (l : Nat),
      init_listener (MaybeChatConnection.WaitingForListener rt pending) l =
        (MaybeChatConnection.Running
          (ChatConnection.finish_connect rt pending l), Outcome.ok ())) ∧
    (∀ (c : ChatConnection) (l : Nat),
      init_listener (MaybeChatConnection.Running c) l =
        (MaybeChatConnection.Running c,
          Outcome.panicked "listener already set")) ∧
    (∀ (c : ChatConnection) (ops : List PhaseOp),
      List.foldl applyPhaseOp (MaybeChatConnection.Running c) ops =
        MaybeChatConnection.Running c) := by
  refine ⟨fun _ _ _ => rfl, fun _ _ => rfl, fun c ops => ?_⟩
  induction ops with
  | nil => rfl
  | cons op rest ih => rw [List.foldl_cons, applyPhaseOp_running, ih]

/-- C5: dispatch to a listener is strictly sequential and in arrival order:
the run-loop's trace of dispatch begin/end actions passes the sequentiality
check (no dispatch begins before the previous one ends), and the events whose
dispatch begins are exactly the delivered events, which form a prefix of the
stream in arrival order. -/
theorem dispatch_strictly_sequential (panics : ServerEvent → Bool)
    (cancel : Option Nat) (s : List ServerEvent) :
    seqCheck (runLoopTrace panics cancel s) = true ∧
    dispatchBegins (runLoopTrace panics cancel s) =
      (runLoop panics cancel s).delivered ∧
    (runLoop panics cancel s).delivered <+: s :=
  ⟨seqCheck_runLoopTrace panics cancel s,
    dispatchBegins_runLoopTrace panics cancel s,
    ⟨(runLoop panics cancel s).remaining,
      runLoop_delivered_append_remaining panics cancel s⟩⟩

/-- C6: the per-iteration `select!` is `biased` with cancellation first: when
the cancellation signal is ready at the same iteration as a pending event,
the loop exits without consuming that event, which stays at the head of the
returned stream; in general, cancelling at iteration `k` leaves exactly
`drop k` of the stream unconsumed, so listener switching is deterministic. -/
theorem cancellation_checked_first (panics : ServerEvent → Bool)
    (e : ServerEvent) (rest : List ServerEvent) :
    runLoop panics (some 0) (e :: rest) = ⟨[], e :: rest, false⟩ ∧
    (∀ (s : List ServerEvent) (k : Nat),
      runLoop noPanic (some k) s = ⟨s.take k, s.drop k, false⟩) :=
  ⟨rfl, fun s k => runLoop_noPanic_some s k⟩

/-- C7: if the listener callback panics while processing an event, the
run-loop catches the panic, logs it (the logged flag of the output), stops
without reading further stream items, and returns the remaining stream
normally (the host task's outcome is `ok`, not a propagated panic); a
subsequent attach whose listener does not panic resumes delivery exactly at
the next unread item. -/
theorem listener_panic_stops_loop (panics panics2 : ServerEvent → Bool)
    (s1 : List ServerEvent) (e : ServerEvent) (s2 : List ServerEvent)
    (h1 : ∀ x ∈ s1, panics x = false) (he : panics e = true)
    (h2 : ∀ x ∈ s2, panics2 x = false) :
    start_listening panics (Except.ok (s1 ++ e :: s2)) none =
      Outcome.ok ⟨s1 ++ [e], s2, true⟩ ∧
    start_listening panics2 (Except.ok s2) none =
      Outcome.ok ⟨s2, [], false⟩ := by
  constructor
  · show Outcome.ok (runLoop panics none (s1 ++ e :: s2)) = _
    rw [runLoop_panics_at panics s1 e s2 h1 he]
  · show Outcome.ok (runLoop panics2 none s2) = _
    rw [runLoop_of_noPanics panics2 s2 h2]

/-- C7 witness: a listener that panics on the queue-empty event, with one
event left unread; a fresh non-panicking listener then drains it. -/
theorem listener_panic_stops_loop_witness :
    (∀ x ∈ ([ServerEvent.QueueEmpty] : List ServerEvent),
      (fun ev => ev == ServerEvent.QueueEmpty) x = false) = False ∧
    start_listening (fun ev => ev == ServerEvent.QueueEmpty)
        (Except.ok
          ([ServerEvent.IncomingMessage 1 [9] 2 3] ++ ServerEvent.QueueEmpty ::
            [ServerEvent.Stopped ChatServiceError.TimedOut])) none =
      Outcome.ok
        ⟨[ServerEvent.IncomingMessage 1 [9] 2 3] ++ [ServerEvent.QueueEmpty],
          [ServerEvent.Stopped ChatServiceError.TimedOut], true⟩ ∧
    start_listening noPanic
        (Except.ok [ServerEvent.Stopped ChatServiceError.TimedOut]) none =
      Outcome.ok ⟨[ServerEvent.Stopped ChatServiceError.TimedOut], [], false⟩ := by
  refine ⟨by decide, ?_, ?_⟩ <;>
    exact (listener_panic_stops_loop
      (fun ev => ev == ServerEvent.QueueEmpty) noPanic
      [ServerEvent.IncomingMessage 1 [9] 2 3] ServerEvent.QueueEmpty
      [ServerEvent.Stopped ChatServiceError.TimedOut]
      (by decide) (by decide) (by decide)).elim fun a b => by
        first
        | exact a
        | exact b

/-- C8: `clear_listener` moves an `Active {handle, cancel}` slot to
`Cancelled(handle)` (dropping the cancel sender), and leaves an `Inactive` or
`Cancelled` slot exactly unchanged, as a no-op. -/
theorem clear_listener_state (h : JoinHandle) (c : Nat)
    (s : List ServerEvent) :
    clear_listener (ChatListenerState.Active h c) =
      (ChatListenerState.Cancelled h, Outcome.ok ()) ∧
    clear_listener (ChatListenerState.Inactive s) =
      (ChatListenerState.Inactive s, Outcome.ok ()) ∧
    clear_listener (ChatListenerState.Cancelled h) =
      (ChatListenerState.Cancelled h, Outcome.ok ()) :=
  ⟨rfl, rfl, rfl⟩

/-- C9: starting from any non-transient state, every public operation stores
a non-transient state back into its cell: `set_listener` and `clear_listener`
never leave `CurrentlyBeingMutated` stored, and `init_listener` (as well as
the read-only `send`/`disconnect`/`info`) never leaves `TemporarilyEvicted`
stored, so the transient markers are unobservable outside the critical
sections. -/
theorem transient_states_unobservable (newHandle : JoinHandle)
    (newCancel l : Nat) (ls : ChatListenerState) (pc : MaybeChatConnection)
    (hls : ls ≠ ChatListenerState.CurrentlyBeingMutated)
    (hpc : pc ≠ MaybeChatConnection.TemporarilyEvicted) :
    (set_listener newHandle newCancel ls).1 ≠
      ChatListenerState.CurrentlyBeingMutated ∧
    (clear_listener ls).1 ≠ ChatListenerState.CurrentlyBeingMutated ∧
    (init_listener pc l).1 ≠ MaybeChatConnection.TemporarilyEvicted ∧
    (∀ op, applyPhaseOp pc op ≠ MaybeChatConnection.TemporarilyEvicted) := by
  refine ⟨?_, ?_, ?_, ?_⟩
  · cases ls <;> simp_all [set_listener]
  · cases ls <;> simp_all [clear_listener, ChatListenerState.cancel]
  · cases pc <;> simp_all [init_listener]
  · intro op
    cases pc <;> cases op <;> simp_all [applyPhaseOp, init_listener]

/-- C9 witness: an `Inactive` slot holding one event and a
`WaitingForListener` phase cell. -/
theorem transient_states_unobservable_witness :
    (ChatListenerState.Inactive [ServerEvent.QueueEmpty] ≠
      ChatListenerState.CurrentlyBeingMutated) ∧
    (MaybeChatConnection.WaitingForListener ⟨0⟩ ⟨1⟩ ≠
      MaybeChatConnection.TemporarilyEvicted) ∧
    ((set_listener ⟨[]⟩ 2 (ChatListenerState.Inactive
        [ServerEvent.QueueEmpty])).1 ≠
      ChatListenerState.CurrentlyBeingMutated ∧
    (clear_listener (ChatListenerState.Inactive [ServerEvent.QueueEmpty])).1 ≠
      ChatListenerState.CurrentlyBeingMutated ∧
    (init_listener (MaybeChatConnection.WaitingForListener ⟨0⟩ ⟨1⟩) 3).1 ≠
      MaybeChatConnection.TemporarilyEvicted ∧
    (∀ op, applyPhaseOp (MaybeChatConnection.WaitingForListener ⟨0⟩ ⟨1⟩) op ≠
      MaybeChatConnection.TemporarilyEvicted)) :=
  ⟨by decide, by decide,
    transient_states_unobservable ⟨[]⟩ 2 3
      (ChatListenerState.Inactive [ServerEvent.QueueEmpty])
      (MaybeChatConnection.WaitingForListener ⟨0⟩ ⟨1⟩)
      (by decide) (by decide)⟩

/-- C10: `init_listener` on a `Running` connection restores the very same
`Running` state (same `ChatConnection`) into the cell before panicking
"listener already set", so a failed second attach leaves the phase unchanged
and subsequent `send`, `disconnect` and `info` calls still observe `Running`:
`send` reaches the transport, `disconnect` reaches the transport, and `info`
returns the running connection's metadata. -/
theorem failed_reattach_preserves_running (c : ChatConnection) (l : Nat)
    (transport : ChatConnection → Request → Nat →
      Except ChatServiceError ChatResponse)
    (message : Request) (timeout : Nat) :
    init_listener (MaybeChatConnection.Running c) l =
      (MaybeChatConnection.Running c,
        Outcome.panicked "listener already set") ∧
    BridgeChatConnection.send transport
        (init_listener (MaybeChatConnection.Running c) l).1 message timeout =
      (Outcome.ok (transport c message timeout), true) ∧
    BridgeChatConnection.disconnect
        (init_listener (MaybeChatConnection.Running c) l).1 =
      (Outcome.ok (), true) ∧
    BridgeChatConnection.info
        (init_listener (MaybeChatConnection.Running c) l).1 =
      Outcome.ok c.connection_info :=
  ⟨rfl, rfl, rfl, rfl⟩
